import Mathlib

/-!
Verification of the analytics derivation layer of the pharmacy dashboard
(`src/app.py`): the record normalizer (`load_data`), the aggregators
(`analyze_prescription_otc_mix`, `check_data_availability`, the KPI and
group-by summaries) and the compliance estimator
(`analyze_patient_compliance`), embedded shallowly.  Monetary and mean
values are modelled as rationals; the IEEE special values produced by
numpy division (`inf`, `nan`) are modelled explicitly by `PFloat`.
-/

/-! ## Calendar dates

`pandas` date subtraction `.dt.days` is a difference of proleptic
Gregorian day ordinals; we embed dates as (year, month, day) with the
standard ordinal. -/

def isLeapYear (y : Nat) : Bool :=
  y % 4 == 0 && (y % 100 != 0 || y % 400 == 0)

def daysBeforeMonth (leap : Bool) (m : Nat) : Nat :=
  let base :=
    match m with
    | 1 => 0 | 2 => 31 | 3 => 59 | 4 => 90 | 5 => 120 | 6 => 151
    | 7 => 181 | 8 => 212 | 9 => 243 | 10 => 273 | 11 => 304 | _ => 334
  if leap && decide (2 < m) then base + 1 else base

structure Date where
  year : Nat
  month : Nat
  day : Nat
deriving DecidableEq, Repr

/-- Day ordinal in the proleptic Gregorian calendar (0001-01-01 has
ordinal 1); differences of ordinals are `pandas` day differences. -/
def Date.ordinal (d : Date) : Nat :=
  365 * (d.year - 1) + (d.year - 1) / 4 - (d.year - 1) / 100 + (d.year - 1) / 400
    + daysBeforeMonth (isLeapYear d.year) d.month + d.day

def dayNames : List String :=
  ["Monday", "Tuesday", "Wednesday", "Thursday", "Friday", "Saturday", "Sunday"]

def monthLongNames : List String :=
  ["January", "February", "March", "April", "May", "June",
   "July", "August", "September", "October", "November", "December"]

/-- Model of `Date.dt.day_name()`: 0001-01-01 was a Monday. -/
def Date.dayName (d : Date) : String :=
  dayNames.getD ((d.ordinal - 1) % 7) ""

/-- Model of the `Month_Name` format `%B %Y`. -/
def Date.monthLabel (d : Date) : String :=
  monthLongNames.getD (d.month - 1) "" ++ " " ++ toString d.year

/-! ## numpy/pandas floating values

Finite values are exact rationals; `inf`, `ninf` and `nan` model the
IEEE-754 special values that numpy produces (division by zero is not an
exception in numpy: `x/0 = ±inf` for `x ≠ 0` and `0/0 = nan`;
`np.maximum`/`np.minimum` propagate `nan`). -/

inductive PFloat where
  | nan : PFloat
  | inf : PFloat
  | ninf : PFloat
  | fin : ℚ → PFloat
deriving DecidableEq, Repr

def PFloat.div : PFloat → PFloat → PFloat
  | nan, _ => nan
  | _, nan => nan
  | fin a, fin b =>
    if b = 0 then (if a = 0 then nan else if 0 < a then inf else ninf)
    else fin (a / b)
  | fin _, inf => fin 0
  | fin _, ninf => fin 0
  | inf, fin b => if 0 ≤ b then inf else ninf
  | ninf, fin b => if 0 ≤ b then ninf else inf
  | inf, inf => nan
  | inf, ninf => nan
  | ninf, inf => nan
  | ninf, ninf => nan

def PFloat.mul : PFloat → PFloat → PFloat
  | nan, _ => nan
  | _, nan => nan
  | fin a, fin b => fin (a * b)
  | inf, fin b => if b = 0 then nan else if 0 < b then inf else ninf
  | fin a, inf => if a = 0 then nan else if 0 < a then inf else ninf
  | ninf, fin b => if b = 0 then nan else if 0 < b then ninf else inf
  | fin a, ninf => if a = 0 then nan else if 0 < a then ninf else inf
  | inf, inf => inf
  | inf, ninf => ninf
  | ninf, inf => ninf
  | ninf, ninf => inf

def PFloat.add : PFloat → PFloat → PFloat
  | nan, _ => nan
  | _, nan => nan
  | inf, ninf => nan
  | ninf, inf => nan
  | inf, _ => inf
  | _, inf => inf
  | ninf, _ => ninf
  | _, ninf => ninf
  | fin a, fin b => fin (a + b)

/-- Model of `np.maximum` (propagates `nan`). -/
def PFloat.max2 : PFloat → PFloat → PFloat
  | nan, _ => nan
  | _, nan => nan
  | inf, _ => inf
  | _, inf => inf
  | ninf, x => x
  | x, ninf => x
  | fin a, fin b => fin (max a b)

/-- Model of `np.minimum` (propagates `nan`). -/
def PFloat.min2 : PFloat → PFloat → PFloat
  | nan, _ => nan
  | _, nan => nan
  | ninf, _ => ninf
  | _, ninf => ninf
  | inf, x => x
  | x, inf => x
  | fin a, fin b => fin (min a b)

/-- Comparison `x >= c` as evaluated on floats: `nan >= c` is false. -/
def PFloat.geq (x : PFloat) (c : ℚ) : Bool :=
  match x with
  | nan => false
  | inf => true
  | ninf => false
  | fin q => decide (c ≤ q)

/-! ## Transactions and the record normalizer (`load_data`, lines 151-192) -/

/-- One raw transaction row: the nine required input columns
(`Date` already parsed; parsing is modelled separately for load errors). -/
structure Row where
  transactionID : String
  date : Date
  patientID : String
  serviceType : String
  medicationCategory : String
  quantity : ℚ
  unitPrice : ℚ
  insuranceUsed : String
  totalPrice : ℚ
deriving DecidableEq, Repr

def prescriptionServiceTypes : List String :=
  ["Prescription", "Vaccination", "Consultation", "Medication Review"]

def clinicalServiceTypes : List String :=
  ["Vaccination", "Consultation", "Medication Review"]

def chronic_conditions : List String :=
  ["Cardiovascular", "Diabetes", "Mental Health"]

/-- A normalized row: the base columns plus every derived column added by
`load_data` (app.py lines 168-186), in assignment order. -/
structure NormRow where
  transactionID : String
  date : Date
  patientID : String
  serviceType : String
  medicationCategory : String
  quantity : ℚ
  unitPrice : ℚ
  insuranceUsed : String
  totalPrice : ℚ
  Month : Nat × Nat
  Year : Nat
  Day_of_Week : String
  Month_Name : String
  Quarter : Nat × Nat
  Revenue : ℚ
  Is_Prescription : Bool
  Is_Clinical_Service : Bool
  Is_Chronic : Bool
deriving DecidableEq, Repr

/-- Action of `load_data` on one (already parsed) row: the derived-column
assignments of app.py lines 171-186. -/
def load_row (r : Row) : NormRow :=
  { transactionID := r.transactionID
    date := r.date
    patientID := r.patientID
    serviceType := r.serviceType
    medicationCategory := r.medicationCategory
    quantity := r.quantity
    unitPrice := r.unitPrice
    insuranceUsed := r.insuranceUsed
    totalPrice := r.totalPrice
    Month := (r.date.year, r.date.month)
    Year := r.date.year
    Day_of_Week := r.date.dayName
    Month_Name := r.date.monthLabel
    Quarter := (r.date.year, (r.date.month - 1) / 3 + 1)
    Revenue := r.totalPrice
    Is_Prescription := prescriptionServiceTypes.contains r.serviceType
    Is_Clinical_Service := clinicalServiceTypes.contains r.serviceType
    Is_Chronic := chronic_conditions.contains r.medicationCategory
      && (r.serviceType == "Prescription") }

def load_rows (rs : List Row) : List NormRow := rs.map load_row

/-- Base-column projection of a normalized row (the nine input columns). -/
def NormRow.toRow (n : NormRow) : Row :=
  { transactionID := n.transactionID
    date := n.date
    patientID := n.patientID
    serviceType := n.serviceType
    medicationCategory := n.medicationCategory
    quantity := n.quantity
    unitPrice := n.unitPrice
    insuranceUsed := n.insuranceUsed
    totalPrice := n.totalPrice }

theorem toRow_load_row (r : Row) : (load_row r).toRow = r := rfl

/-- C1: for every normalized row, `Is_Prescription` holds iff the service
type is one of Prescription, Vaccination, Consultation, Medication Review;
`Is_Clinical_Service` iff it is one of Vaccination, Consultation,
Medication Review; `Is_Chronic` iff the medication category is one of
Cardiovascular, Diabetes, Mental Health and the service type is exactly
Prescription; an OTC row is never chronic; and every chronic row is a
prescription row. -/
theorem C1_derived_flags (r : Row) :
    ((load_row r).Is_Prescription = true ↔ r.serviceType ∈ prescriptionServiceTypes) ∧
    ((load_row r).Is_Clinical_Service = true ↔ r.serviceType ∈ clinicalServiceTypes) ∧
    ((load_row r).Is_Chronic = true ↔
      (r.medicationCategory ∈ chronic_conditions ∧ r.serviceType = "Prescription")) ∧
    (r.serviceType = "OTC" → (load_row r).Is_Chronic = false) ∧
    ((load_row r).Is_Chronic = true → (load_row r).Is_Prescription = true) := by
  refine ⟨?_, ?_, ?_, ?_, ?_⟩
  · simp [load_row, List.elem_iff]
  · simp [load_row, List.elem_iff]
  · simp [load_row, List.elem_iff, beq_iff_eq]
  · intro h
    simp [load_row, h]
  · intro h
    have h' : r.medicationCategory ∈ chronic_conditions ∧ r.serviceType = "Prescription" := by
      simpa [load_row, List.elem_iff, beq_iff_eq] using h
    simp [load_row, List.elem_iff, h'.2, prescriptionServiceTypes]

/-! ## Prescription/OTC mix aggregator (`analyze_prescription_otc_mix`, lines 214-231) -/

structure MixResult where
  prescription_revenue : ℚ
  otc_revenue : ℚ
  prescription_pct : ℚ
  otc_pct : ℚ
deriving DecidableEq, Repr

def prescriptionRevenue (df : List NormRow) : ℚ :=
  ((df.filter (fun r => r.Is_Prescription)).map (fun r => r.totalPrice)).sum

def otcRevenue (df : List NormRow) : ℚ :=
  ((df.filter (fun r => r.serviceType == "OTC")).map (fun r => r.totalPrice)).sum

def analyze_prescription_otc_mix (df : List NormRow) : MixResult :=
  let p := prescriptionRevenue df
  let o := otcRevenue df
  let t := p + o
  if 0 < t then ⟨p, o, p / t * 100, o / t * 100⟩ else ⟨p, o, 0, 0⟩

/-! ## Data availability (`check_data_availability`, lines 194-212) -/

structure Availability where
  compliance : Bool
  seasonal : Bool
  clinical : Bool
deriving DecidableEq, Repr

def seasonal_categories : List String := ["Cold & Flu", "Allergy", "Vaccination"]

def check_data_availability (df : List NormRow) : Availability :=
  { compliance := decide (0 < (df.filter (fun r =>
      chronic_conditions.contains r.medicationCategory
        && (r.serviceType == "Prescription"))).length)
    seasonal := decide (0 < (df.filter (fun r =>
      seasonal_categories.contains r.medicationCategory)).length)
    clinical := decide (0 < (df.filter (fun r =>
      clinicalServiceTypes.contains r.serviceType)).length) }

/-! ## Other aggregators (group-by/sum summaries and scalar KPIs) -/

/-- Data of `create_daily_sales_trend` (line 636): `Revenue` summed per date. -/
def create_daily_sales_trend (df : List NormRow) : List (Date × ℚ) :=
  ((df.map (fun r => r.date)).dedup).map (fun d =>
    (d, ((df.filter (fun r => r.date == d)).map (fun r => r.Revenue)).sum))

structure CategorySummary where
  category : String
  totalPrice : ℚ
  quantity : ℚ
  transactions : Nat
deriving DecidableEq, Repr

/-- Per-category aggregation of `create_top_medications_chart` (lines 297-302). -/
def category_analysis (df : List NormRow) : List CategorySummary :=
  ((df.map (fun r => r.medicationCategory)).dedup).map (fun c =>
    let g := df.filter (fun r => r.medicationCategory == c)
    ⟨c, (g.map (fun r => r.totalPrice)).sum, (g.map (fun r => r.quantity)).sum, g.length⟩)

/-- Per-`InsuranceUsed` aggregation of `create_insurance_analysis` (lines 476-479). -/
def insurance_breakdown (df : List NormRow) : List (String × ℚ × Nat) :=
  ((df.map (fun r => r.insuranceUsed)).dedup).map (fun v =>
    let g := df.filter (fun r => r.insuranceUsed == v)
    (v, (g.map (fun r => r.totalPrice)).sum, g.length))

/-- Model of `create_seasonality_analysis` (lines 534-545): `none` models the early
`return False` on an empty seasonal restriction. -/
def create_seasonality_analysis (df : List NormRow) :
    Option (List ((Nat × String) × ℚ × Nat)) :=
  let sdf := df.filter (fun r => seasonal_categories.contains r.medicationCategory)
  if sdf.isEmpty then none
  else some (((sdf.map (fun r => (r.date.month, r.medicationCategory))).dedup).map
    (fun k =>
      let g := sdf.filter (fun r => (r.date.month, r.medicationCategory) == k)
      (k, (g.map (fun r => r.totalPrice)).sum, g.length)))

/-- Model of `create_clinical_services_analysis` (lines 573-610): `none` models the
early `return False` on an empty clinical restriction. -/
def create_clinical_services_analysis (df : List NormRow) :
    Option (List (String × ℚ × Nat)) :=
  let cdf := df.filter (fun r => r.Is_Clinical_Service)
  if cdf.isEmpty then none
  else some (((cdf.map (fun r => r.serviceType)).dedup).map
    (fun s =>
      let g := cdf.filter (fun r => r.serviceType == s)
      (s, (g.map (fun r => r.totalPrice)).sum, g.length)))

structure PharmacyKPIs where
  rx_avg : ℚ
  clinical_pct : ℚ
  insurance_pct : ℚ
  chronic_patients : Nat
deriving DecidableEq, Repr

/-- The scalar metrics of `create_pharmacy_specific_metrics` (lines 669-698),
each ratio guarded by the explicit length checks in the code. -/
def create_pharmacy_specific_metrics (df : List NormRow) : PharmacyKPIs :=
  let rxRows := df.filter (fun r => r.serviceType == "Prescription")
  { rx_avg := if 0 < rxRows.length
      then (rxRows.map (fun r => r.totalPrice)).sum / (rxRows.length : ℚ) else 0
    clinical_pct := if 0 < df.length
      then ((df.filter (fun r => r.Is_Clinical_Service)).length : ℚ) / (df.length : ℚ) * 100
      else 0
    insurance_pct := if 0 < df.length
      then ((df.filter (fun r => r.insuranceUsed == "Yes")).length : ℚ) / (df.length : ℚ) * 100
      else 0
    chronic_patients :=
      ((df.filter (fun r => r.Is_Chronic)).map (fun r => r.patientID)).dedup.length }

/-! ## Compliance estimator (`analyze_patient_compliance`, lines 368-400) -/

def listMinZ : List ℤ → ℤ
  | [] => 0
  | x :: xs => xs.foldl min x

def listMaxZ : List ℤ → ℤ
  | [] => 0
  | x :: xs => xs.foldl max x

/-- One row of the `patient_refills` frame (lines 377-389). -/
structure RefillRecord where
  PatientID : String
  Category : String
  Refill_Count : Nat
  First_Fill : ℤ
  Last_Fill : ℤ
  Avg_Days_Supply : ℚ
  Days_Between : ℤ
  Expected_Refills : PFloat
  Compliance_Rate : PFloat
deriving DecidableEq, Repr

def chronicRows (df : List NormRow) : List NormRow :=
  df.filter (fun r => r.Is_Chronic)

/-- The rows of the (PatientID, MedicationCategory) group-by group. -/
def complianceGroup (df : List NormRow) (pid cat : String) : List NormRow :=
  (chronicRows df).filter (fun r => r.patientID == pid && r.medicationCategory == cat)

/-- Per-group aggregation and derived columns, lines 377-389:
count/min/max of `Date`, mean of `Quantity`, `Days_Between`,
`Expected_Refills = np.maximum(1, Days_Between / Avg_Days_Supply)` and
`Compliance_Rate = np.minimum(100, Refill_Count / Expected_Refills * 100)`. -/
def mkRefillRecord (pid cat : String) (g : List NormRow) : RefillRecord :=
  let dates := g.map (fun r => (r.date.ordinal : ℤ))
  let count := g.length
  let first := listMinZ dates
  let last := listMaxZ dates
  let avg : ℚ := (g.map (fun r => r.quantity)).sum / (count : ℚ)
  let days := last - first
  let expected := PFloat.max2 (PFloat.fin 1) (PFloat.div (PFloat.fin (days : ℚ)) (PFloat.fin avg))
  let rate := PFloat.min2 (PFloat.fin 100)
    (PFloat.mul (PFloat.div (PFloat.fin (count : ℚ)) expected) (PFloat.fin 100))
  ⟨pid, cat, count, first, last, avg, days, expected, rate⟩

def complianceKeys (df : List NormRow) : List (String × String) :=
  ((chronicRows df).map (fun r => (r.patientID, r.medicationCategory))).dedup

def patient_refills (df : List NormRow) : List RefillRecord :=
  (complianceKeys df).map (fun k => mkRefillRecord k.1 k.2 (complianceGroup df k.1 k.2))

/-- pandas `Series.mean()` with its default NaN-skipping. -/
def pandasMean (l : List PFloat) : PFloat :=
  let v := l.filter (fun x => !(x == PFloat.nan))
  if v.isEmpty then PFloat.nan
  else PFloat.div (v.foldl PFloat.add (PFloat.fin 0)) (PFloat.fin (v.length : ℚ))

structure ComplianceSummary where
  avg_compliance : PFloat
  high_compliance_count : Nat
  total_chronic_patients : Nat
deriving DecidableEq, Repr

/-- Model of `analyze_patient_compliance`: `none` models the `(None, None)` early
return on an empty chronic restriction (lines 373-374). -/
def analyze_patient_compliance (df : List NormRow) :
    Option (List RefillRecord × ComplianceSummary) :=
  if (chronicRows df).isEmpty then none
  else
    let recs := patient_refills df
    some (recs,
      { avg_compliance := pandasMean (recs.map (fun r => r.Compliance_Rate))
        high_compliance_count := (recs.filter (fun r => r.Compliance_Rate.geq 80)).length
        total_chronic_patients := recs.length })

/-- C2: whenever the combined prescription-plus-OTC revenue is strictly
positive the two reported percentages sum to exactly 100, and when the
combined total is zero both percentages are 0. -/
theorem C2_mix_percentages_sum (df : List NormRow) :
    (0 < prescriptionRevenue df + otcRevenue df →
      (analyze_prescription_otc_mix df).prescription_pct
        + (analyze_prescription_otc_mix df).otc_pct = 100) ∧
    (prescriptionRevenue df + otcRevenue df = 0 →
      (analyze_prescription_otc_mix df).prescription_pct = 0 ∧
      (analyze_prescription_otc_mix df).otc_pct = 0) := by
  constructor
  · intro h
    have ht : prescriptionRevenue df + otcRevenue df ≠ 0 := ne_of_gt h
    simp only [analyze_prescription_otc_mix, if_pos h]
    field_simp
    ring
  · intro h
    simp only [analyze_prescription_otc_mix, h]
    norm_num

def mixSampleRow : Row :=
  ⟨"T1", ⟨2024, 1, 1⟩, "P1", "Prescription", "Cardiovascular", 30, 1, "Yes", 10⟩

theorem C2_mix_percentages_sum_witness :
    (analyze_prescription_otc_mix (load_rows [mixSampleRow])).prescription_pct
      + (analyze_prescription_otc_mix (load_rows [mixSampleRow])).otc_pct = 100 :=
  (C2_mix_percentages_sum (load_rows [mixSampleRow])).1 (by
    have h1 : prescriptionRevenue (load_rows [mixSampleRow]) = 10 := by
      simp [prescriptionRevenue, load_rows, load_row, mixSampleRow, prescriptionServiceTypes]
    have h2 : otcRevenue (load_rows [mixSampleRow]) = 0 := by
      simp [otcRevenue, load_rows, load_row, mixSampleRow]
    rw [h1, h2]
    norm_num)

/-- C10: a row whose service type is neither in the prescription set nor
equal to OTC contributes to neither revenue bucket; the percentages are
taken of the restricted prescription-plus-OTC total; and no row can be in
both buckets, since the prescription set excludes OTC. -/
theorem C10_mix_buckets (r : Row) (df : List Row)
    (h1 : r.serviceType ∉ prescriptionServiceTypes) (h2 : r.serviceType ≠ "OTC") :
    prescriptionRevenue (load_rows (r :: df)) = prescriptionRevenue (load_rows df) ∧
    otcRevenue (load_rows (r :: df)) = otcRevenue (load_rows df) ∧
    (∀ ndf : List NormRow, 0 < prescriptionRevenue ndf + otcRevenue ndf →
      (analyze_prescription_otc_mix ndf).prescription_pct
        = prescriptionRevenue ndf / (prescriptionRevenue ndf + otcRevenue ndf) * 100 ∧
      (analyze_prescription_otc_mix ndf).otc_pct
        = otcRevenue ndf / (prescriptionRevenue ndf + otcRevenue ndf) * 100) ∧
    (∀ s : Row, ¬((load_row s).Is_Prescription = true ∧ s.serviceType = "OTC")) := by
  refine ⟨?_, ?_, ?_, ?_⟩
  · simp [prescriptionRevenue, load_rows, load_row, List.filter_cons, h1]
  · simp [otcRevenue, load_rows, load_row, List.filter_cons, h2]
  · intro ndf h
    simp only [analyze_prescription_otc_mix]
    rw [if_pos h]
    exact ⟨rfl, rfl⟩
  · rintro s ⟨hs1, hs2⟩
    have hmem : s.serviceType ∈ prescriptionServiceTypes := List.elem_iff.mp hs1
    rw [hs2] at hmem
    simp [prescriptionServiceTypes] at hmem

def otherSampleRow : Row :=
  ⟨"T2", ⟨2024, 1, 2⟩, "P2", "Other", "Allergy", 5, 2, "No", 10⟩

theorem C10_mix_buckets_witness :
    prescriptionRevenue (load_rows [otherSampleRow]) = prescriptionRevenue (load_rows []) ∧
    otcRevenue (load_rows [otherSampleRow]) = otcRevenue (load_rows []) :=
  ⟨(C10_mix_buckets otherSampleRow [] (by simp [otherSampleRow, prescriptionServiceTypes])
      (by simp [otherSampleRow])).1,
   (C10_mix_buckets otherSampleRow [] (by simp [otherSampleRow, prescriptionServiceTypes])
      (by simp [otherSampleRow])).2.1⟩

/-- C7: on the empty transaction table, every modelled aggregator returns
an empty or zero-valued summary (the compliance, seasonality and clinical
analyses return their "nothing to show" value) and every availability
predicate is false; no division by zero occurs since every ratio is
guarded. -/
theorem C7_empty_table :
    analyze_prescription_otc_mix [] = ⟨0, 0, 0, 0⟩ ∧
    analyze_patient_compliance [] = none ∧
    check_data_availability [] = ⟨false, false, false⟩ ∧
    create_pharmacy_specific_metrics [] = ⟨0, 0, 0, 0⟩ ∧
    create_daily_sales_trend [] = [] ∧
    category_analysis [] = [] ∧
    insurance_breakdown [] = [] ∧
    create_seasonality_analysis [] = none ∧
    create_clinical_services_analysis [] = none := by
  refine ⟨?_, rfl, rfl, rfl, rfl, rfl, rfl, rfl, rfl⟩
  simp [analyze_prescription_otc_mix, prescriptionRevenue, otcRevenue]

/-! ## Compliance estimator facts -/

/-- Every record produced by `patient_refills` comes from a nonempty
(PatientID, MedicationCategory) group whose rows all lie in the input. -/
theorem mem_patient_refills {df : List NormRow} {rec : RefillRecord}
    (h : rec ∈ patient_refills df) :
    ∃ pid cat, rec = mkRefillRecord pid cat (complianceGroup df pid cat) ∧
      complianceGroup df pid cat ≠ [] ∧
      ∀ r ∈ complianceGroup df pid cat, r ∈ df := by
  obtain ⟨k, hk, hrec⟩ := List.mem_map.mp h
  obtain ⟨pid, cat⟩ := k
  refine ⟨pid, cat, hrec.symm, ?_, ?_⟩
  · have hk' := List.mem_dedup.mp hk
    obtain ⟨r, hr, hkey⟩ := List.mem_map.mp hk'
    have h1 : r.patientID = pid := congrArg Prod.fst hkey
    have h2 : r.medicationCategory = cat := congrArg Prod.snd hkey
    have hrg : r ∈ complianceGroup df pid cat := by
      apply List.mem_filter.mpr
      exact ⟨hr, by simp [h1, h2]⟩
    exact List.ne_nil_of_mem hrg
  · intro r hr
    exact (List.mem_filter.mp (List.mem_filter.mp hr).1).1

/-- On a nonempty group of positive quantities, the computed compliance
rate is a finite rational in [0, 100]. -/
theorem complianceRate_bounds (pid cat : String) (g : List NormRow)
    (hne : g ≠ []) (hq : ∀ r ∈ g, 0 < r.quantity) :
    ∃ q : ℚ, (mkRefillRecord pid cat g).Compliance_Rate = PFloat.fin q ∧
      0 ≤ q ∧ q ≤ 100 := by
  have hn : 0 < g.length := List.length_pos.mpr hne
  have hnq : (0 : ℚ) < (g.length : ℚ) := by exact_mod_cast hn
  have hs : 0 < (g.map (fun r => r.quantity)).sum := by
    apply List.sum_pos
    · intro a ha
      obtain ⟨r, hr, hra⟩ := List.mem_map.mp ha
      exact hra ▸ hq r hr
    · intro hnil
      exact hne (List.map_eq_nil_iff.mp hnil)
  have havgpos : 0 < (g.map (fun r => r.quantity)).sum / (g.length : ℚ) :=
    div_pos hs hnq
  have havgne : (g.map (fun r => r.quantity)).sum / (g.length : ℚ) ≠ 0 :=
    ne_of_gt havgpos
  simp only [mkRefillRecord]
  set days : ℤ := listMaxZ (g.map (fun r => (r.date.ordinal : ℤ)))
    - listMinZ (g.map (fun r => (r.date.ordinal : ℤ))) with hdays
  set avg : ℚ := (g.map (fun r => r.quantity)).sum / (g.length : ℚ) with havg
  have e1 : PFloat.div (PFloat.fin (days : ℚ)) (PFloat.fin avg)
      = PFloat.fin ((days : ℚ) / avg) := by
    simp [PFloat.div, havgne]
  rw [e1]
  have e2 : PFloat.max2 (PFloat.fin 1) (PFloat.fin ((days : ℚ) / avg))
      = PFloat.fin (max 1 ((days : ℚ) / avg)) := rfl
  rw [e2]
  set e : ℚ := max 1 ((days : ℚ) / avg) with he
  have he1 : (1 : ℚ) ≤ e := le_max_left _ _
  have hepos : (0 : ℚ) < e := lt_of_lt_of_le one_pos he1
  have hene : e ≠ 0 := ne_of_gt hepos
  have e3 : PFloat.div (PFloat.fin (g.length : ℚ)) (PFloat.fin e)
      = PFloat.fin ((g.length : ℚ) / e) := by
    simp [PFloat.div, hene]
  rw [e3]
  refine ⟨min 100 ((g.length : ℚ) / e * 100), rfl, ?_, min_le_left _ _⟩
  apply le_min
  · norm_num
  · apply mul_nonneg
    · exact div_nonneg (le_of_lt hnq) (le_of_lt hepos)
    · norm_num

/-- C4: for every input whose quantities are positive (the input contract:
`Quantity` is a positive integer), every (patient, category) group
produced by the compliance estimator has a finite compliance rate lying
in the closed interval [0, 100]. -/
theorem C4_compliance_rate_in_range (df : List NormRow)
    (hq : ∀ r ∈ df, 0 < r.quantity) :
    ∀ rec ∈ patient_refills df, ∃ q : ℚ,
      rec.Compliance_Rate = PFloat.fin q ∧ 0 ≤ q ∧ q ≤ 100 := by
  intro rec hrec
  obtain ⟨pid, cat, hr, hne, hsub⟩ := mem_patient_refills hrec
  rw [hr]
  exact complianceRate_bounds pid cat _ hne (fun r h => hq r (hsub r h))

def c4SampleRow : Row :=
  ⟨"T1", ⟨2024, 1, 1⟩, "P7", "Prescription", "Diabetes", 30, 1, "Yes", 50⟩

def c4df : List NormRow := load_rows [c4SampleRow]

def c4rec : RefillRecord :=
  mkRefillRecord "P7" "Diabetes" (complianceGroup c4df "P7" "Diabetes")

theorem C4_compliance_rate_in_range_witness :
    ∃ q : ℚ, c4rec.Compliance_Rate = PFloat.fin q ∧ 0 ≤ q ∧ q ≤ 100 := by
  have hq : ∀ r ∈ c4df, 0 < r.quantity := by
    intro r hr
    simp [c4df, load_rows, load_row, c4SampleRow] at hr
    rw [hr]
    norm_num
  have hmem : c4rec ∈ patient_refills c4df := by
    have : patient_refills c4df = [c4rec] := by
      simp [patient_refills, complianceKeys, chronicRows, c4df, load_rows, load_row,
        c4SampleRow, chronic_conditions, c4rec]
    rw [this]
    exact List.mem_singleton_self _
  exact C4_compliance_rate_in_range c4df hq c4rec hmem

/-- On a singleton group with nonzero quantity: days-between is 0, the
`max(1, 0/avg)` floor gives expected refills 1, and the rate is
`min(100, 1/1*100) = 100`. -/
theorem mkRefillRecord_singleton (pid cat : String) (r : NormRow) (h : r.quantity ≠ 0) :
    (mkRefillRecord pid cat [r]).Expected_Refills = PFloat.fin 1 ∧
    (mkRefillRecord pid cat [r]).Compliance_Rate = PFloat.fin 100 := by
  simp only [mkRefillRecord, List.map, listMinZ, listMaxZ, List.foldl,
    List.length, List.sum_cons, List.sum_nil, sub_self]
  norm_num [PFloat.div, PFloat.max2, PFloat.mul, PFloat.min2, h, sup_eq_left, inf_eq_left]

/-- C5: every group with exactly one qualifying chronic fill (and a
positive quantity, per the input contract) gets expected refills 1 via
the `max(1, ·)` floor — days-between is 0 — and hence compliance rate
exactly 100. -/
theorem C5_single_fill_full_compliance (df : List NormRow)
    (hq : ∀ r ∈ df, 0 < r.quantity) :
    ∀ rec ∈ patient_refills df, rec.Refill_Count = 1 →
      rec.Expected_Refills = PFloat.fin 1 ∧ rec.Compliance_Rate = PFloat.fin 100 := by
  intro rec hrec hcount
  obtain ⟨pid, cat, hr, hne, hsub⟩ := mem_patient_refills hrec
  have hlen : (complianceGroup df pid cat).length = 1 := by
    rw [hr] at hcount
    exact hcount
  obtain ⟨r, hg⟩ := List.length_eq_one.mp hlen
  have hqr : 0 < r.quantity := by
    apply hq
    apply hsub
    rw [hg]
    exact List.mem_singleton_self r
  rw [hr, hg]
  exact mkRefillRecord_singleton pid cat r (ne_of_gt hqr)

def c5SampleRow : Row :=
  ⟨"T9", ⟨2024, 5, 10⟩, "P3", "Prescription", "Mental Health", 25, 2, "No", 50⟩

def c5df : List NormRow := load_rows [c5SampleRow]

def c5rec : RefillRecord :=
  mkRefillRecord "P3" "Mental Health" (complianceGroup c5df "P3" "Mental Health")

theorem C5_single_fill_full_compliance_witness :
    c5rec.Expected_Refills = PFloat.fin 1 ∧ c5rec.Compliance_Rate = PFloat.fin 100 := by
  have hq : ∀ r ∈ c5df, 0 < r.quantity := by
    intro r hr
    simp [c5df, load_rows, load_row, c5SampleRow] at hr
    rw [hr]
    norm_num
  have heval : patient_refills c5df = [c5rec] := by
    simp [patient_refills, complianceKeys, chronicRows, c5df, load_rows, load_row,
      c5SampleRow, chronic_conditions, c5rec]
  have hmem : c5rec ∈ patient_refills c5df := by
    rw [heval]
    exact List.mem_singleton_self _
  have hcount : c5rec.Refill_Count = 1 := by
    simp [c5rec, mkRefillRecord, complianceGroup, chronicRows, c5df, load_rows,
      load_row, c5SampleRow, chronic_conditions]
  exact C5_single_fill_full_compliance c5df hq c5rec hmem hcount

/-! ## The three-row compliance scenario (claim C3)

2024 is a leap year, so 2024-01-01 to 2024-03-02 spans 31 + 29 + 1 = 61
days, not 60; the computed expected-refill count is `61/30`, not 2. -/

def c3rows : List Row :=
  [⟨"T1", ⟨2024, 1, 1⟩, "P1", "Prescription", "Cardiovascular", 30, 12, "Yes", 360⟩,
   ⟨"T2", ⟨2024, 2, 1⟩, "P1", "Prescription", "Cardiovascular", 30, 12, "Yes", 360⟩,
   ⟨"T3", ⟨2024, 3, 2⟩, "P1", "Prescription", "Cardiovascular", 30, 12, "Yes", 360⟩]

def c3df : List NormRow := load_rows c3rows

def c3rec : RefillRecord :=
  mkRefillRecord "P1" "Cardiovascular" (complianceGroup c3df "P1" "Cardiovascular")

/-- C3 counterexample: on the 3-row scenario input the single produced
group has days-between 61 (2024 is a leap year), not 60, and expected
refills `61/30`, not 2. -/
theorem C3_scenario_counterexample :
    patient_refills c3df = [c3rec] ∧
    c3rec.Days_Between ≠ 60 ∧
    c3rec.Expected_Refills ≠ PFloat.fin 2 := by
  refine ⟨?_, ?_, ?_⟩
  · simp [patient_refills, complianceKeys, chronicRows, c3df, load_rows, load_row,
      c3rows, chronic_conditions, c3rec]
  · norm_num [c3rec, mkRefillRecord, complianceGroup, chronicRows, c3df, load_rows,
      load_row, c3rows, chronic_conditions, listMinZ, listMaxZ, Date.ordinal,
      isLeapYear, daysBeforeMonth, min_def, max_def]
  · norm_num [c3rec, mkRefillRecord, complianceGroup, chronicRows, c3df, load_rows,
      load_row, c3rows, chronic_conditions, listMinZ, listMaxZ, Date.ordinal,
      isLeapYear, daysBeforeMonth, PFloat.div, PFloat.max2, min_def, max_def]

/-- C3 (amended): on the 3-row scenario input the estimator produces one
group with refill count 3, days-between 61, expected refills 61/30, and
compliance rate min(100, 3/(61/30)*100) = min(100, 9000/61) = 100. -/
theorem C3_scenario_amended :
    patient_refills c3df = [c3rec] ∧
    c3rec.Refill_Count = 3 ∧
    c3rec.Days_Between = 61 ∧
    c3rec.Expected_Refills = PFloat.fin (61 / 30) ∧
    c3rec.Compliance_Rate = PFloat.fin 100 := by
  refine ⟨?_, ?_, ?_, ?_, ?_⟩
  · simp [patient_refills, complianceKeys, chronicRows, c3df, load_rows, load_row,
      c3rows, chronic_conditions, c3rec]
  · simp [c3rec, mkRefillRecord, complianceGroup, chronicRows, c3df, load_rows,
      load_row, c3rows, chronic_conditions]
  · norm_num [c3rec, mkRefillRecord, complianceGroup, chronicRows, c3df, load_rows,
      load_row, c3rows, chronic_conditions, listMinZ, listMaxZ, Date.ordinal,
      isLeapYear, daysBeforeMonth, min_def, max_def]
  · norm_num [c3rec, mkRefillRecord, complianceGroup, chronicRows, c3df, load_rows,
      load_row, c3rows, chronic_conditions, listMinZ, listMaxZ, Date.ordinal,
      isLeapYear, daysBeforeMonth, PFloat.div, PFloat.max2, min_def, max_def]
  · norm_num [c3rec, mkRefillRecord, complianceGroup, chronicRows, c3df, load_rows,
      load_row, c3rows, chronic_conditions, listMinZ, listMaxZ, Date.ordinal,
      isLeapYear, daysBeforeMonth, PFloat.div, PFloat.max2, PFloat.mul, PFloat.min2,
      min_def, max_def]

/-! ## Zero average quantity (claim C6)

`Expected_Refills = np.maximum(1, Days_Between / Avg_Days_Supply)` is not
guarded: numpy division by a zero average yields `inf` (positive
days-between, so compliance silently becomes 0) or `nan` (zero
days-between, so compliance becomes `nan`), never the guarded value 1. -/

def c6rows : List Row :=
  [⟨"T1", ⟨2024, 1, 1⟩, "P9", "Prescription", "Cardiovascular", 0, 1, "Yes", 10⟩,
   ⟨"T2", ⟨2024, 1, 2⟩, "P9", "Prescription", "Cardiovascular", 0, 1, "Yes", 10⟩]

def c6df : List NormRow := load_rows c6rows

def c6rec : RefillRecord :=
  mkRefillRecord "P9" "Cardiovascular" (complianceGroup c6df "P9" "Cardiovascular")

def c6rowSingle : Row :=
  ⟨"T3", ⟨2024, 2, 1⟩, "P8", "Prescription", "Diabetes", 0, 1, "Yes", 10⟩

def c6dfSingle : List NormRow := load_rows [c6rowSingle]

def c6recSingle : RefillRecord :=
  mkRefillRecord "P8" "Diabetes" (complianceGroup c6dfSingle "P8" "Diabetes")

/-- C6: the division by a zero average quantity is NOT guarded.  On a
two-fill group of zero quantities one day apart, the estimator produces
expected refills `inf` and compliance 0 (not expected refills 1); on a
single zero-quantity fill it produces `nan` for both. -/
theorem C6_zero_average_unguarded :
    patient_refills c6df = [c6rec] ∧
    c6rec.Avg_Days_Supply = 0 ∧
    c6rec.Days_Between = 1 ∧
    c6rec.Expected_Refills = PFloat.inf ∧
    c6rec.Compliance_Rate = PFloat.fin 0 ∧
    c6rec.Expected_Refills ≠ PFloat.fin 1 ∧
    c6recSingle.Expected_Refills = PFloat.nan ∧
    c6recSingle.Compliance_Rate = PFloat.nan := by
  refine ⟨?_, ?_, ?_, ?_, ?_, ?_, ?_, ?_⟩
  · simp [patient_refills, complianceKeys, chronicRows, c6df, load_rows, load_row,
      c6rows, chronic_conditions, c6rec]
  · norm_num [c6rec, mkRefillRecord, complianceGroup, chronicRows, c6df, load_rows,
      load_row, c6rows, chronic_conditions]
  · norm_num [c6rec, mkRefillRecord, complianceGroup, chronicRows, c6df, load_rows,
      load_row, c6rows, chronic_conditions, listMinZ, listMaxZ, Date.ordinal,
      isLeapYear, daysBeforeMonth, min_def, max_def]
  · norm_num [c6rec, mkRefillRecord, complianceGroup, chronicRows, c6df, load_rows,
      load_row, c6rows, chronic_conditions, listMinZ, listMaxZ, Date.ordinal,
      isLeapYear, daysBeforeMonth, PFloat.div, PFloat.max2, min_def, max_def]
  · norm_num [c6rec, mkRefillRecord, complianceGroup, chronicRows, c6df, load_rows,
      load_row, c6rows, chronic_conditions, listMinZ, listMaxZ, Date.ordinal,
      isLeapYear, daysBeforeMonth, PFloat.div, PFloat.max2, PFloat.mul, PFloat.min2,
      min_def, max_def]
  · have h : c6rec.Expected_Refills = PFloat.inf := by
      norm_num [c6rec, mkRefillRecord, complianceGroup, chronicRows, c6df, load_rows,
        load_row, c6rows, chronic_conditions, listMinZ, listMaxZ, Date.ordinal,
        isLeapYear, daysBeforeMonth, PFloat.div, PFloat.max2, min_def, max_def]
    rw [h]
    decide
  · norm_num [c6recSingle, mkRefillRecord, complianceGroup, chronicRows, c6dfSingle,
      load_rows, load_row, c6rowSingle, chronic_conditions, listMinZ, listMaxZ,
      PFloat.div, PFloat.max2, min_def, max_def]
  · norm_num [c6recSingle, mkRefillRecord, complianceGroup, chronicRows, c6dfSingle,
      load_rows, load_row, c6rowSingle, chronic_conditions, listMinZ, listMaxZ,
      PFloat.div, PFloat.max2, PFloat.mul, PFloat.min2, min_def, max_def]

/-! ## Export and re-import (claim C8)

The download button (app.py line 942) writes `filtered_df.to_csv(index=False)`,
i.e. every column of the dataframe — the nine base columns in input order
followed by the derived columns in assignment order.  Re-importing runs
`load_data`, which reads the base columns and recomputes (overwrites)
every derived column. -/

def required_columns : List String :=
  ["TransactionID", "Date", "PatientID", "ServiceType", "MedicationCategory",
   "Quantity", "UnitPrice", "InsuranceUsed", "TotalPrice"]

def derived_columns : List String :=
  ["Month", "Year", "Day_of_Week", "Month_Name", "Quarter", "Revenue",
   "Is_Prescription", "Is_Clinical_Service", "Is_Chronic"]

def export_columns : List String := required_columns ++ derived_columns

/-- Export to CSV followed by `load_data`: re-parsing keeps the base
columns and recomputes the derived ones. -/
def reimport_export (df : List NormRow) : List NormRow :=
  load_rows (df.map NormRow.toRow)

/-- C8 counterexample: the export does NOT contain the nine input-contract
columns only; derived columns such as `Revenue` and `Is_Chronic` are
included in `to_csv` output. -/
theorem C8_export_columns_counterexample :
    "Revenue" ∈ export_columns ∧ "Revenue" ∉ required_columns ∧
    "Is_Chronic" ∈ export_columns ∧ export_columns ≠ required_columns := by
  decide

/-- C8 (amended): re-importing an exported filtered set yields the same
base-column values (derived columns are recomputed on load), but the
export carries the nine base columns AND the derived columns. -/
theorem C8_roundtrip_amended (df : List NormRow) (rs : List Row) :
    (reimport_export df).map NormRow.toRow = df.map NormRow.toRow ∧
    reimport_export (load_rows rs) = load_rows rs ∧
    export_columns = required_columns ++ derived_columns := by
  refine ⟨?_, ?_, rfl⟩
  · simp only [reimport_export, load_rows, List.map_map]
    exact List.map_congr_left (fun a _ => rfl)
  · simp only [reimport_export, load_rows, List.map_map]
    exact List.map_congr_left (fun a _ => rfl)

/-! ## Raw loading and its failure modes (claim C9)

`load_data` (app.py lines 151-192) touches only the columns `Date`
(line 168), `TotalPrice` (178), `ServiceType` (181) and
`MedicationCategory` (186); a missing column raises a `KeyError` naming
it, an unparseable date raises a parse error naming the value, and the
`except` branch surfaces the message together with the full
required-columns list, returning `None` instead of a table. -/

inductive RawCell where
  | valid : Date → RawCell
  | invalid : String → RawCell
deriving DecidableEq, Repr

/-- A raw input table: each of the nine contract columns is present
(`some`) or absent (`none`). -/
structure RawTable where
  TransactionID : Option (List String)
  Date : Option (List RawCell)
  PatientID : Option (List String)
  ServiceType : Option (List String)
  MedicationCategory : Option (List String)
  Quantity : Option (List ℚ)
  UnitPrice : Option (List ℚ)
  InsuranceUsed : Option (List String)
  TotalPrice : Option (List ℚ)
deriving DecidableEq, Repr

inductive LoadError where
  | keyError : String → LoadError
  | parseError : String → LoadError
deriving DecidableEq, Repr

/-- Model of `pd.to_datetime` over the column: fails on the first unparseable
value, naming it. -/
def parseDates : List RawCell → Except LoadError (List Date)
  | [] => Except.ok []
  | RawCell.valid d :: rest =>
    match parseDates rest with
    | Except.ok ds => Except.ok (d :: ds)
    | Except.error e => Except.error e
  | RawCell.invalid s :: _ => Except.error (LoadError.parseError s)

/-- Column access `df[name]`: `KeyError` naming the column when absent. -/
def getCol {α : Type} (name : String) (c : Option α) : Except LoadError α :=
  match c with
  | some v => Except.ok v
  | none => Except.error (LoadError.keyError name)

/-- The augmented table returned on success. -/
structure AugTable where
  raw : RawTable
  dates : List Date
  Revenue : List ℚ
  Is_Prescription : List Bool
  Is_Clinical_Service : List Bool
  Is_Chronic : List Bool
deriving DecidableEq, Repr

/-- Model of `load_data` on a raw table, accessing columns in source order:
`Date` (and date parsing), then `TotalPrice`, `ServiceType`,
`MedicationCategory`; the other five contract columns are never read. -/
def load_data (t : RawTable) : Except LoadError AugTable :=
  match getCol "Date" t.Date with
  | Except.error e => Except.error e
  | Except.ok rawDates =>
    match parseDates rawDates with
    | Except.error e => Except.error e
    | Except.ok dates =>
      match getCol "TotalPrice" t.TotalPrice with
      | Except.error e => Except.error e
      | Except.ok totals =>
        match getCol "ServiceType" t.ServiceType with
        | Except.error e => Except.error e
        | Except.ok types =>
          match getCol "MedicationCategory" t.MedicationCategory with
          | Except.error e => Except.error e
          | Except.ok cats =>
            Except.ok
              { raw := t
                dates := dates
                Revenue := totals
                Is_Prescription := types.map (fun s => prescriptionServiceTypes.contains s)
                Is_Clinical_Service := types.map (fun s => clinicalServiceTypes.contains s)
                Is_Chronic := (cats.zip types).map
                  (fun p => chronic_conditions.contains p.1 && (p.2 == "Prescription")) }

def load_ok (t : RawTable) : Bool :=
  match load_data t with
  | Except.ok _ => true
  | Except.error _ => false

/-- What the `except` branch shows the user: the error message and the
full required-columns list (`st.error` + `st.info`, lines 190-191). -/
def surfaced (e : LoadError) : String × List String :=
  (match e with
   | LoadError.keyError c => "Error loading data: " ++ c
   | LoadError.parseError v => "Error loading data: unable to parse " ++ v,
   required_columns)

def rawSample : RawTable :=
  { TransactionID := some ["T1"]
    Date := some [RawCell.valid ⟨2024, 1, 1⟩]
    PatientID := some ["P1"]
    ServiceType := some ["Prescription"]
    MedicationCategory := some ["Diabetes"]
    Quantity := some [30]
    UnitPrice := some [1]
    InsuranceUsed := some ["Yes"]
    TotalPrice := some [30] }

def rawMissingPatientID : RawTable := { rawSample with PatientID := none }

/-- C9 counterexample: a table missing the required column `PatientID`
(but with the four columns the loader touches present) loads without any
error — loading does not fail for every missing required column. -/
theorem C9_schema_counterexample :
    rawMissingPatientID.PatientID = none ∧
    "PatientID" ∈ required_columns ∧
    load_ok rawMissingPatientID = true := by
  refine ⟨rfl, by decide, rfl⟩

/-- C9 (amended): loading fails with a `KeyError` naming the column when
`Date`, `TotalPrice`, `ServiceType` or `MedicationCategory` is missing
(in that access order), fails with a parse error naming the offending
value when a date cannot be parsed, and succeeds whenever those four
columns are present with parseable dates, regardless of the other five
contract columns; every failure is surfaced with the full
required-columns list, and no augmented table is returned. -/
theorem C9_load_failure_modes (t : RawTable) :
    (t.Date = none → load_data t = Except.error (LoadError.keyError "Date")) ∧
    (∀ cells s, t.Date = some cells →
      parseDates cells = Except.error (LoadError.parseError s) →
      load_data t = Except.error (LoadError.parseError s)) ∧
    (∀ cells ds, t.Date = some cells → parseDates cells = Except.ok ds →
      t.TotalPrice = none →
      load_data t = Except.error (LoadError.keyError "TotalPrice")) ∧
    (∀ cells ds tot, t.Date = some cells → parseDates cells = Except.ok ds →
      t.TotalPrice = some tot → t.ServiceType = none →
      load_data t = Except.error (LoadError.keyError "ServiceType")) ∧
    (∀ cells ds tot sts, t.Date = some cells → parseDates cells = Except.ok ds →
      t.TotalPrice = some tot → t.ServiceType = some sts →
      t.MedicationCategory = none →
      load_data t = Except.error (LoadError.keyError "MedicationCategory")) ∧
    (∀ cells ds tot sts cats, t.Date = some cells → parseDates cells = Except.ok ds →
      t.TotalPrice = some tot → t.ServiceType = some sts →
      t.MedicationCategory = some cats → load_ok t = true) ∧
    (∀ e, (surfaced e).2 = required_columns) ∧
    (∀ e a, load_data t = Except.error e → load_data t ≠ Except.ok a) := by
  refine ⟨?_, ?_, ?_, ?_, ?_, ?_, ?_, ?_⟩
  · intro h
    simp [load_data, getCol, h]
  · intro cells s h1 h2
    simp [load_data, getCol, h1, h2]
  · intro cells ds h1 h2 h3
    simp [load_data, getCol, h1, h2, h3]
  · intro cells ds tot h1 h2 h3 h4
    simp [load_data, getCol, h1, h2, h3, h4]
  · intro cells ds tot sts h1 h2 h3 h4 h5
    simp [load_data, getCol, h1, h2, h3, h4, h5]
  · intro cells ds tot sts cats h1 h2 h3 h4 h5
    simp [load_ok, load_data, getCol, h1, h2, h3, h4, h5]
  · intro e
    rfl
  · intro e a he hok
    rw [he] at hok
    exact Except.noConfusion hok

def rawMissingDate : RawTable := { rawSample with Date := none }

def rawBadDate : RawTable := { rawSample with Date := some [RawCell.invalid "not-a-date"] }

def rawMissingTotal : RawTable := { rawSample with TotalPrice := none }

theorem C9_load_failure_modes_witness :
    load_data rawMissingDate = Except.error (LoadError.keyError "Date") ∧
    load_data rawBadDate = Except.error (LoadError.parseError "not-a-date") ∧
    load_data rawMissingTotal = Except.error (LoadError.keyError "TotalPrice") :=
  ⟨(C9_load_failure_modes rawMissingDate).1 rfl,
   (C9_load_failure_modes rawBadDate).2.1 [RawCell.invalid "not-a-date"] "not-a-date" rfl rfl,
   (C9_load_failure_modes rawMissingTotal).2.2.1 [RawCell.valid ⟨2024, 1, 1⟩]
     [⟨2024, 1, 1⟩] rfl rfl rfl⟩

def c1SampleRow : Row :=
  ⟨"T0", ⟨2024, 1, 1⟩, "P0", "Prescription", "Diabetes", 10, 1, "Yes", 10⟩

theorem C1_derived_flags_witness :
    (load_row c1SampleRow).Is_Prescription = true ∧
    (load_row c1SampleRow).Is_Chronic = true :=
  ⟨(C1_derived_flags c1SampleRow).1.mpr (by decide),
   (C1_derived_flags c1SampleRow).2.2.1.mpr ⟨by decide, rfl⟩⟩
